import Mathlib

/- Shallow embedding of the sporkbytes Money library.

   The current implementation lives in src/src/index.ts; the legacy
   implementation it replaced lives in src/index.js.  JavaScript numbers are
   modelled by the inductive type JSNum with constructors for NaN, the two
   infinities, and finite numbers.  A finite double is identified with the
   exact rational value denoted by its canonical decimal string rendering
   (the shortest round-tripping numeral): this is the level at which the
   library's string-exponent scaling trick operates, since every conversion
   in the core routes a number through its decimal string.  Bit-level
   IEEE-754 rounding of individual floating-point operations is abstracted
   away, and comments note the places where that abstraction is load-bearing.

   JavaScript renders a finite number in exponent form exactly when it is
   nonzero and its magnitude is below 10^-6 or at least 10^21; plain decimal
   form otherwise.  Appending an exponent suffix to an exponent-form string
   produces a numeral that the strict Number() grammar rejects (NaN), which
   is how non-finite and extreme operands are drained into the range guard.

   Rational arithmetic is implemented through mkRat so that every definition
   evaluates by kernel reduction on concrete inputs; the lemmas qAdd_eq,
   qSub_eq, qMul_eq, qMulPow10_eq, qDivPow10_eq and qRound_eq identify these
   implementations with the ordinary field operations on ℚ. -/

/-- Exact rational addition, implemented on numerators and denominators. -/
def qAdd (a b : ℚ) : ℚ := mkRat (a.num * b.den + b.num * a.den) (a.den * b.den)

/-- Exact rational subtraction, implemented on numerators and denominators. -/
def qSub (a b : ℚ) : ℚ := mkRat (a.num * b.den - b.num * a.den) (a.den * b.den)

/-- Exact rational multiplication, implemented on numerators and denominators. -/
def qMul (a b : ℚ) : ℚ := mkRat (a.num * b.num) (a.den * b.den)

/-- Exact multiplication by 10^k. -/
def qMulPow10 (a : ℚ) (k : ℕ) : ℚ := mkRat (a.num * 10 ^ k) a.den

/-- Exact division by 10^k. -/
def qDivPow10 (a : ℚ) (k : ℕ) : ℚ := mkRat a.num (a.den * 10 ^ k)

/-- Round to the nearest integer, halves toward positive infinity. -/
def qRound (a : ℚ) : ℤ := ⌊qAdd a (mkRat 1 2)⌋

theorem qMul_eq (a b : ℚ) : qMul a b = a * b := by
  rw [qMul, Rat.mkRat_eq_div]
  push_cast
  conv_rhs => rw [← Rat.num_div_den a, ← Rat.num_div_den b]
  rw [div_mul_div_comm]

theorem qDivPow10_eq (a : ℚ) (k : ℕ) : qDivPow10 a k = a / 10 ^ k := by
  rw [qDivPow10, Rat.mkRat_eq_div]
  push_cast
  conv_rhs => rw [← Rat.num_div_den a]
  rw [div_div]

inductive JSNum where
  | nan
  | inf
  | ninf
  | fin (q : ℚ)
deriving DecidableEq

/-- True exactly on NaN, mirroring the JavaScript isNaN test on a number. -/
def JSNum.isNaN : JSNum → Bool
  | .nan => true
  | _ => false

/-- True exactly on finite numbers, mirroring Number.isFinite. -/
def JSNum.isFinite : JSNum → Bool
  | .fin _ => true
  | _ => false

/-- IEEE addition on modelled doubles: NaN absorbs, opposite infinities give
NaN, finite addition is exact at the decimal-value level of the model. -/
def jsAdd : JSNum → JSNum → JSNum
  | .nan, _ => .nan
  | _, .nan => .nan
  | .inf, .ninf => .nan
  | .ninf, .inf => .nan
  | .inf, _ => .inf
  | _, .inf => .inf
  | .ninf, _ => .ninf
  | _, .ninf => .ninf
  | .fin a, .fin b => .fin (qAdd a b)

/-- IEEE subtraction on modelled doubles. -/
def jsSub : JSNum → JSNum → JSNum
  | .nan, _ => .nan
  | _, .nan => .nan
  | .inf, .inf => .nan
  | .ninf, .ninf => .nan
  | .inf, _ => .inf
  | .ninf, _ => .ninf
  | _, .inf => .ninf
  | _, .ninf => .inf
  | .fin a, .fin b => .fin (qSub a b)

/-- IEEE multiplication on modelled doubles: NaN absorbs, infinity times zero
is NaN, signs propagate through infinities. -/
def jsMul : JSNum → JSNum → JSNum
  | .nan, _ => .nan
  | _, .nan => .nan
  | .inf, .inf => .inf
  | .inf, .ninf => .ninf
  | .ninf, .inf => .ninf
  | .ninf, .ninf => .inf
  | .inf, .fin b => if b = 0 then .nan else if 0 < b then .inf else .ninf
  | .fin a, .inf => if a = 0 then .nan else if 0 < a then .inf else .ninf
  | .ninf, .fin b => if b = 0 then .nan else if 0 < b then .ninf else .inf
  | .fin a, .ninf => if a = 0 then .nan else if 0 < a then .ninf else .inf
  | .fin a, .fin b => .fin (qMul a b)

/-- Division of a modelled double by 10^k (used by the percent helper, which
divides by the literal 100). -/
def jsDivPow10 (x : JSNum) (k : ℕ) : JSNum :=
  match x with
  | .nan => .nan
  | .inf => .inf
  | .ninf => .ninf
  | .fin a => .fin (qDivPow10 a k)

/-- Math.round: round to the nearest integer, halves toward positive
infinity, which agrees with Mathlib's round on the rationals; NaN and the
infinities pass through unchanged. -/
def jsRound : JSNum → JSNum
  | .nan => .nan
  | .inf => .inf
  | .ninf => .ninf
  | .fin q => .fin ((qRound q : ℤ) : ℚ)

/-- Whether the canonical decimal string of a finite double carries an
exponent marker: nonzero with magnitude below 10^-6 or at least 10^21. -/
def jsToStringHasExp (q : ℚ) : Bool :=
  decide (q ≠ 0 ∧
    ((mkRat (-1) (10 ^ 6) < q ∧ q < mkRat 1 (10 ^ 6)) ∨
      q ≤ mkRat (-(10 ^ 21)) 1 ∨ mkRat (10 ^ 21) 1 ≤ q))

example : jsToStringHasExp (mkRat 1 10) = false := by decide
example : jsToStringHasExp (mkRat (10 ^ 21) 1) = true := by decide
example : jsToStringHasExp 0 = false := by decide
example : jsToStringHasExp (mkRat 1 (10 ^ 7)) = true := by decide
example : jsAdd (.fin (mkRat 1 10)) (.fin (mkRat 2 10)) = .fin (mkRat 3 10) := by decide
example : jsRound (.fin (mkRat 259 10)) = .fin 26 := by decide

/-- Negation implemented on the numerator. -/
def qNeg (a : ℚ) : ℚ := mkRat (-a.num) a.den

theorem qNeg_eq (a : ℚ) : qNeg a = -a := by
  rw [qNeg, Rat.mkRat_eq_div]
  push_cast
  rw [neg_div, Rat.num_div_den]

/-- The fixed scale constant from src/src/index.ts (maxExponent = 6). -/
def maxExponent : ℕ := 6

/-- Number.MAX_SAFE_INTEGER = 2^53 - 1. -/
def maxSafeInteger : ℚ := 9007199254740991

/-- Number.MIN_SAFE_INTEGER = -(2^53 - 1). -/
def minSafeInteger : ℚ := -9007199254740991

/-- The Money value type: a single stored amount. -/
structure Money where
  amount : JSNum
deriving DecidableEq

/-- Errors are plain JavaScript Error values carrying a message. -/
structure JsError where
  message : String
deriving DecidableEq

def cannotParseMessage : String :=
  "Your amount could not be parsed into a floating point number. Please pass an amount that can be parsed as a float."

def numberTooBigMessage : String := "Your numbers are too big to calculate safely."

/- ---------- parseFloat: leading-prefix base-10 float parsing ---------- -/

def isDigitCh (c : Char) : Bool := ('0' ≤ c) && (c ≤ '9')

def isSpaceCh (c : Char) : Bool := c = ' ' ∨ c = '\t' ∨ c = '\n' ∨ c = '\r'

/-- Split a character list into its longest digit prefix and the rest. -/
def splitDigits : List Char → List Char × List Char
  | [] => ([], [])
  | c :: cs =>
    if isDigitCh c then
      let r := splitDigits cs
      (c :: r.1, r.2)
    else ([], c :: cs)

def digitsToNat (ds : List Char) : ℕ :=
  ds.foldl (fun acc c => 10 * acc + (c.toNat - '0'.toNat)) 0

/-- Parse an optional exponent suffix e[+-]?digits; an exponent marker not
followed by digits is not consumed (parseFloat backtracks), contributing 0. -/
def parseExpTail : List Char → ℤ
  | c :: rest =>
    if c = 'e' ∨ c = 'E' then
      match rest with
      | '+' :: r2 =>
        let ds := (splitDigits r2).1
        if ds.isEmpty then 0 else (digitsToNat ds : ℤ)
      | '-' :: r2 =>
        let ds := (splitDigits r2).1
        if ds.isEmpty then 0 else -(digitsToNat ds : ℤ)
      | r2 =>
        let ds := (splitDigits r2).1
        if ds.isEmpty then 0 else (digitsToNat ds : ℤ)
    else 0
  | [] => 0

/-- Parse digits [. digits]; fails when no digit is present on either side of
the decimal point. Returns the mantissa value and the unconsumed rest. -/
def parseMantissa (cs : List Char) : Option (ℚ × List Char) :=
  let ints := (splitDigits cs).1
  let r1 := (splitDigits cs).2
  match r1 with
  | '.' :: r2 =>
    let fracs := (splitDigits r2).1
    let r3 := (splitDigits r2).2
    if ints.isEmpty ∧ fracs.isEmpty then none
    else
      some (mkRat (digitsToNat ints * 10 ^ fracs.length + digitsToNat fracs)
        (10 ^ fracs.length), r3)
  | _ => if ints.isEmpty then none else some (mkRat (digitsToNat ints) 1, r1)

/-- Scale a mantissa by a signed decimal exponent. -/
def applyExp (m : ℚ) (e : ℤ) : ℚ :=
  if 0 ≤ e then qMulPow10 m e.toNat else qDivPow10 m (-e).toNat

/-- JavaScript parseFloat: skip leading whitespace, optional sign, the
Infinity literal, otherwise the longest numeric prefix digits[.digits][e±d];
NaN when no prefix parses.  A numeral denotes its exact rational value in
this model (double rounding and overflow are abstracted away). -/
def parseFloat (s : String) : JSNum :=
  let cs := s.toList.dropWhile (fun c => isSpaceCh c)
  let sp : Bool × List Char :=
    match cs with
    | '-' :: r => (true, r)
    | '+' :: r => (false, r)
    | _ => (false, cs)
  if sp.2.take 8 = "Infinity".toList then (if sp.1 then .ninf else .inf)
  else
    match parseMantissa sp.2 with
    | none => .nan
    | some mr =>
      let v := applyExp mr.1 (parseExpTail mr.2)
      .fin (if sp.1 then qNeg v else v)

example : parseFloat "0.125" = .fin (mkRat 1 8) := by decide
example : parseFloat "" = .nan := by decide
example : parseFloat "randomString" = .nan := by decide
example : parseFloat "25.9" = .fin (mkRat 259 10) := by decide
example : parseFloat "-1.5e2" = .fin (mkRat (-150) 1) := by decide
example : parseFloat "300000e-6" = .fin (mkRat 3 10) := by decide
example : parseFloat "Infinity" = .inf := by decide
example : parseFloat "12abc" = .fin (mkRat 12 1) := by decide

/- ---------- Money construction and coercion ---------- -/

/-- Models new Money(s) for a string argument (src/src/index.ts lines 19-27):
parseFloat the string; throw the parse error on NaN; otherwise store the
parsed number unchanged. -/
def Money.fromString (s : String) : Except JsError Money :=
  let floatAmount := parseFloat s
  if floatAmount.isNaN then .error ⟨cannotParseMessage⟩ else .ok ⟨floatAmount⟩

/-- Models new Money(x) for a number argument: the constructor stringifies the
number and applies parseFloat, and parseFloat(String(x)) recovers x for every
non-NaN double (including the infinities, via the Infinity literal, and
exponent-form renderings, whose suffix parseFloat accepts), while String(NaN)
parses to NaN.  So the number path stores x itself unless x is NaN. -/
def Money.fromNumber (x : JSNum) : Except JsError Money :=
  if x.isNaN then .error ⟨cannotParseMessage⟩ else .ok ⟨x⟩

/-- The argument of a binary operation: an existing Money, a raw number, or a
raw string. -/
inductive Operand where
  | money (m : Money)
  | num (x : JSNum)
  | str (s : String)

/-- The instanceof test at the top of every operation: a non-Money argument
is promoted through the constructor. -/
def coerceToMoney : Operand → Except JsError Money
  | .money m => .ok m
  | .num x => Money.fromNumber x
  | .str s => Money.fromString s

/- ---------- The scaling engine ---------- -/

/-- Models Number(`${x}e6`) : render x to its decimal string, append the
exponent suffix, parse with the strict Number grammar.  When x is NaN, an
infinity, or a finite number whose rendering already carries an exponent
marker, the concatenated numeral is rejected and the result is NaN; otherwise
the numeral denotes exactly x shifted by k decimal digits. -/
def appendPosExp (x : JSNum) (k : ℕ) : JSNum :=
  match x with
  | .fin q => if jsToStringHasExp q then .nan else .fin (qMulPow10 q k)
  | _ => .nan

/-- src/src/index.ts lines 149-155: map Math.round(Number(`${num}e6`)) over
the pair of operand amounts. -/
def Money.getNormalizedIntegerValues (numbers : JSNum × JSNum) : JSNum × JSNum :=
  (jsRound (appendPosExp numbers.1 maxExponent),
    jsRound (appendPosExp numbers.2 maxExponent))

/-- src/src/index.ts lines 163-167: number < Number.MAX_SAFE_INTEGER &&
number > Number.MIN_SAFE_INTEGER.  Both comparisons are false on NaN, and one
of them is false on each infinity. -/
def Money.numberInSafeIntegerRange (number : JSNum) : Bool :=
  match number with
  | .fin q => decide (q < maxSafeInteger ∧ minSafeInteger < q)
  | _ => false

/-- Models new Money(`${n}e-${k}`) : the rescale step of add/subtract/multiply
routes the combined integer through the constructor, i.e. through parseFloat.
parseFloat keeps the longest valid prefix: a plain rendering of n followed by
the suffix denotes n shifted down by k digits; an exponent-form rendering of n
already contains a marker, so parseFloat stops before the appended suffix and
yields n itself; the Infinity renderings parse to the infinities; only the NaN
rendering fails and raises the constructor's parse error. -/
def rescaleToMoney (n : JSNum) (k : ℕ) : Except JsError Money :=
  match n with
  | .fin q =>
    if jsToStringHasExp q then .ok ⟨.fin q⟩ else .ok ⟨.fin (qDivPow10 q k)⟩
  | .inf => .ok ⟨.inf⟩
  | .ninf => .ok ⟨.ninf⟩
  | .nan => .error ⟨cannotParseMessage⟩

/-- src/src/index.ts lines 53-69. -/
def Money.add (self : Money) (money : Operand) : Except JsError Money :=
  match coerceToMoney money with
  | .error e => .error e
  | .ok m =>
    let p := Money.getNormalizedIntegerValues (self.amount, m.amount)
    let sum := jsAdd p.1 p.2
    if Money.numberInSafeIntegerRange sum then rescaleToMoney sum maxExponent
    else .error ⟨numberTooBigMessage⟩

/-- src/src/index.ts lines 77-93. -/
def Money.subtract (self : Money) (money : Operand) : Except JsError Money :=
  match coerceToMoney money with
  | .error e => .error e
  | .ok m =>
    let p := Money.getNormalizedIntegerValues (self.amount, m.amount)
    let difference := jsSub p.1 p.2
    if Money.numberInSafeIntegerRange difference then
      rescaleToMoney difference maxExponent
    else .error ⟨numberTooBigMessage⟩

/-- src/src/index.ts lines 101-117; the rescale exponent is maxExponent * 2. -/
def Money.multiply (self : Money) (money : Operand) : Except JsError Money :=
  match coerceToMoney money with
  | .error e => .error e
  | .ok m =>
    let p := Money.getNormalizedIntegerValues (self.amount, m.amount)
    let product := jsMul p.1 p.2
    if Money.numberInSafeIntegerRange product then
      rescaleToMoney product (maxExponent * 2)
    else .error ⟨numberTooBigMessage⟩

/-- Modelled from the spec: the external collaborator calculatePercent from
the math-utils package is not part of this repository; section 6 gives its
contract as value × percent / 100, consumed as a pure function. -/
def calculatePercent (value percent : JSNum) : JSNum :=
  jsDivPow10 (jsMul value percent) 2

/-- src/src/index.ts lines 125-129. -/
def Money.addPercent (self : Money) (percent : JSNum) : Except JsError Money :=
  self.add (.num (calculatePercent self.amount percent))

/-- src/src/index.ts lines 137-141. -/
def Money.subtractPercent (self : Money) (percent : JSNum) :
    Except JsError Money :=
  self.subtract (.num (calculatePercent self.amount percent))

/- ---------- The legacy implementation (src/index.js) ----------

   The legacy arithmetic does bare double arithmetic: every multiply, add,
   subtract and divide in (a * 100 + b * 100) / 100 is rounded to the nearest
   binary64 value, and the result depends on those bit-level roundings — the
   very behaviour the rewritten engine removed.  The decimal-value model
   cannot express an individual rounding exactly, so the legacy operations
   are modelled relationally: each floating-point step may return any value
   within relative slack eps of the exact result of that step.  The relation
   soundly contains the real execution: IEEE-754 round-to-nearest introduces
   relative error at most 2^-53 per operation, identifying a double with the
   value of its decimal rendering contributes at most 2^-53 more per value,
   and the chosen eps = 2^-50 absorbs both with an eightfold margin.
   Theorems below quantify over every value the relation admits, so they
   hold of the real program whichever way each rounding goes. -/

namespace Legacy

end Legacy

instance instDecEqExceptJsErrorMoney : DecidableEq (Except JsError Money) :=
  fun x y =>
    match x, y with
    | .error a, .error b =>
      if h : a = b then .isTrue (congrArg Except.error h)
      else .isFalse (fun hh => h (Except.error.inj hh))
    | .ok a, .ok b =>
      if h : a = b then .isTrue (congrArg Except.ok h)
      else .isFalse (fun hh => h (Except.ok.inj hh))
    | .error _, .ok _ => .isFalse (fun hh => Except.noConfusion hh)
    | .ok _, .error _ => .isFalse (fun hh => Except.noConfusion hh)

example :
    Money.add ⟨.fin (mkRat 1 10)⟩ (.money ⟨.fin (mkRat 2 10)⟩) =
      .ok ⟨.fin (mkRat 3 10)⟩ := by decide
example :
    Money.subtract ⟨.fin (mkRat 259 10)⟩ (.money ⟨.fin (mkRat 6475 1000)⟩) =
      .ok ⟨.fin (mkRat 19425 1000)⟩ := by decide
example :
    Money.multiply ⟨.fin (mkRat 1 10)⟩ (.money ⟨.fin (mkRat 2 10)⟩) =
      .ok ⟨.fin (mkRat 2 100)⟩ := by decide
example :
    Money.add ⟨.fin (mkRat 9007199256 1)⟩ (.money ⟨.fin 1⟩) =
      .error ⟨numberTooBigMessage⟩ := by decide
example :
    Money.addPercent ⟨.fin 20⟩ (.fin 50) = .ok ⟨.fin 30⟩ := by decide

/- ---------- Helper lemmas ---------- -/

/-- The normalization step applied to a single value. -/
def normalizeValue (x : JSNum) : JSNum := jsRound (appendPosExp x maxExponent)

theorem getNormalized_pair (a b : JSNum) :
    Money.getNormalizedIntegerValues (a, b) = (normalizeValue a, normalizeValue b) :=
  rfl

theorem normalizeValue_nan_of_exp (q : ℚ) (h : jsToStringHasExp q = true) :
    normalizeValue (.fin q) = .nan := by
  simp only [normalizeValue, appendPosExp, h, if_true, jsRound]

theorem normalizeValue_nan_of_nonfinite (x : JSNum) (h : x.isFinite = false) :
    normalizeValue x = .nan := by
  cases x <;> simp_all [normalizeValue, appendPosExp, jsRound, JSNum.isFinite]

theorem check_fin_iff (q : ℚ) :
    Money.numberInSafeIntegerRange (.fin q) = true ↔
      minSafeInteger < q ∧ q < maxSafeInteger := by
  simp only [Money.numberInSafeIntegerRange, decide_eq_true_eq]
  tauto

theorem check_true_fin (n : JSNum) (h : Money.numberInSafeIntegerRange n = true) :
    ∃ q : ℚ, n = .fin q := by
  cases n <;> simp_all [Money.numberInSafeIntegerRange]

theorem rescale_fin_ok (q : ℚ) (k : ℕ) :
    ∃ m : Money, rescaleToMoney (.fin q) k = .ok m ∧ m.amount.isFinite = true := by
  by_cases h : jsToStringHasExp q = true <;>
    simp [rescaleToMoney, h, JSNum.isFinite]

theorem rescale_ok_finite (q : ℚ) (k : ℕ) (m : Money)
    (h : rescaleToMoney (.fin q) k = .ok m) : m.amount.isFinite = true := by
  cases m with
  | mk am =>
    rcases Bool.eq_false_or_eq_true (jsToStringHasExp q) with hExp | hExp <;>
      simp only [rescaleToMoney, hExp, Bool.false_eq_true, if_false, if_true,
        Except.ok.injEq, Money.mk.injEq] at h <;>
      cases h <;> rfl

theorem money_add_coerce (a : Money) (o : Operand) (mb : Money)
    (hc : coerceToMoney o = .ok mb) :
    Money.add a o = Money.add a (.money mb) := by
  unfold Money.add
  rw [hc]
  rfl

theorem money_add_coerce_err (a : Money) (o : Operand) (e : JsError)
    (hc : coerceToMoney o = .error e) : Money.add a o = .error e := by
  unfold Money.add
  rw [hc]

theorem money_subtract_coerce (a : Money) (o : Operand) (mb : Money)
    (hc : coerceToMoney o = .ok mb) :
    Money.subtract a o = Money.subtract a (.money mb) := by
  unfold Money.subtract
  rw [hc]
  rfl

theorem money_subtract_coerce_err (a : Money) (o : Operand) (e : JsError)
    (hc : coerceToMoney o = .error e) : Money.subtract a o = .error e := by
  unfold Money.subtract
  rw [hc]

theorem money_multiply_coerce (a : Money) (o : Operand) (mb : Money)
    (hc : coerceToMoney o = .ok mb) :
    Money.multiply a o = Money.multiply a (.money mb) := by
  unfold Money.multiply
  rw [hc]
  rfl

theorem money_multiply_coerce_err (a : Money) (o : Operand) (e : JsError)
    (hc : coerceToMoney o = .error e) : Money.multiply a o = .error e := by
  unfold Money.multiply
  rw [hc]

theorem money_add_money (a b : Money) :
    Money.add a (.money b) =
      (if Money.numberInSafeIntegerRange
          (jsAdd (normalizeValue a.amount) (normalizeValue b.amount)) then
        rescaleToMoney
          (jsAdd (normalizeValue a.amount) (normalizeValue b.amount)) maxExponent
      else .error ⟨numberTooBigMessage⟩) := rfl

theorem money_subtract_money (a b : Money) :
    Money.subtract a (.money b) =
      (if Money.numberInSafeIntegerRange
          (jsSub (normalizeValue a.amount) (normalizeValue b.amount)) then
        rescaleToMoney
          (jsSub (normalizeValue a.amount) (normalizeValue b.amount)) maxExponent
      else .error ⟨numberTooBigMessage⟩) := rfl

theorem money_multiply_money (a b : Money) :
    Money.multiply a (.money b) =
      (if Money.numberInSafeIntegerRange
          (jsMul (normalizeValue a.amount) (normalizeValue b.amount)) then
        rescaleToMoney
          (jsMul (normalizeValue a.amount) (normalizeValue b.amount))
          (maxExponent * 2)
      else .error ⟨numberTooBigMessage⟩) := rfl

theorem add_error_iff (a b : Money) :
    Money.add a (.money b) = .error ⟨numberTooBigMessage⟩ ↔
      Money.numberInSafeIntegerRange
        (jsAdd (normalizeValue a.amount) (normalizeValue b.amount)) = false := by
  rw [money_add_money]
  by_cases hchk : Money.numberInSafeIntegerRange
    (jsAdd (normalizeValue a.amount) (normalizeValue b.amount)) = true
  · rw [if_pos hchk, hchk]
    obtain ⟨q, hq⟩ := check_true_fin _ hchk
    rw [hq]
    obtain ⟨mm, hmm, _⟩ := rescale_fin_ok q maxExponent
    rw [hmm]
    simp
  · rw [Bool.not_eq_true] at hchk
    rw [if_neg (by simp [hchk]), hchk]
    simp

theorem subtract_error_iff (a b : Money) :
    Money.subtract a (.money b) = .error ⟨numberTooBigMessage⟩ ↔
      Money.numberInSafeIntegerRange
        (jsSub (normalizeValue a.amount) (normalizeValue b.amount)) = false := by
  rw [money_subtract_money]
  by_cases hchk : Money.numberInSafeIntegerRange
    (jsSub (normalizeValue a.amount) (normalizeValue b.amount)) = true
  · rw [if_pos hchk, hchk]
    obtain ⟨q, hq⟩ := check_true_fin _ hchk
    rw [hq]
    obtain ⟨mm, hmm, _⟩ := rescale_fin_ok q maxExponent
    rw [hmm]
    simp
  · rw [Bool.not_eq_true] at hchk
    rw [if_neg (by simp [hchk]), hchk]
    simp

theorem multiply_error_iff (a b : Money) :
    Money.multiply a (.money b) = .error ⟨numberTooBigMessage⟩ ↔
      Money.numberInSafeIntegerRange
        (jsMul (normalizeValue a.amount) (normalizeValue b.amount)) = false := by
  rw [money_multiply_money]
  by_cases hchk : Money.numberInSafeIntegerRange
    (jsMul (normalizeValue a.amount) (normalizeValue b.amount)) = true
  · rw [if_pos hchk, hchk]
    obtain ⟨q, hq⟩ := check_true_fin _ hchk
    rw [hq]
    obtain ⟨mm, hmm, _⟩ := rescale_fin_ok q (maxExponent * 2)
    rw [hmm]
    simp
  · rw [Bool.not_eq_true] at hchk
    rw [if_neg (by simp [hchk]), hchk]
    simp

theorem add_ok_of_check (a b : Money)
    (hchk : Money.numberInSafeIntegerRange
      (jsAdd (normalizeValue a.amount) (normalizeValue b.amount)) = true) :
    ∃ m : Money, Money.add a (.money b) = .ok m := by
  rw [money_add_money, if_pos hchk]
  obtain ⟨q, hq⟩ := check_true_fin _ hchk
  rw [hq]
  obtain ⟨mm, hmm, _⟩ := rescale_fin_ok q maxExponent
  exact ⟨mm, hmm⟩

theorem subtract_ok_of_check (a b : Money)
    (hchk : Money.numberInSafeIntegerRange
      (jsSub (normalizeValue a.amount) (normalizeValue b.amount)) = true) :
    ∃ m : Money, Money.subtract a (.money b) = .ok m := by
  rw [money_subtract_money, if_pos hchk]
  obtain ⟨q, hq⟩ := check_true_fin _ hchk
  rw [hq]
  obtain ⟨mm, hmm, _⟩ := rescale_fin_ok q maxExponent
  exact ⟨mm, hmm⟩

theorem multiply_ok_of_check (a b : Money)
    (hchk : Money.numberInSafeIntegerRange
      (jsMul (normalizeValue a.amount) (normalizeValue b.amount)) = true) :
    ∃ m : Money, Money.multiply a (.money b) = .ok m := by
  rw [money_multiply_money, if_pos hchk]
  obtain ⟨q, hq⟩ := check_true_fin _ hchk
  rw [hq]
  obtain ⟨mm, hmm, _⟩ := rescale_fin_ok q (maxExponent * 2)
  exact ⟨mm, hmm⟩

theorem add_ok_finAmount (a : Money) (o : Operand) (m : Money)
    (h : Money.add a o = .ok m) : m.amount.isFinite = true := by
  rcases hc : coerceToMoney o with e | mb
  · rw [money_add_coerce_err a o e hc] at h
    exact absurd h (by simp)
  · rw [money_add_coerce a o mb hc, money_add_money] at h
    by_cases hchk : Money.numberInSafeIntegerRange
      (jsAdd (normalizeValue a.amount) (normalizeValue mb.amount)) = true
    · rw [if_pos hchk] at h
      obtain ⟨q, hq⟩ := check_true_fin _ hchk
      rw [hq] at h
      exact rescale_ok_finite q _ m h
    · rw [if_neg hchk] at h
      exact absurd h (by simp)

theorem subtract_ok_finAmount (a : Money) (o : Operand) (m : Money)
    (h : Money.subtract a o = .ok m) : m.amount.isFinite = true := by
  rcases hc : coerceToMoney o with e | mb
  · rw [money_subtract_coerce_err a o e hc] at h
    exact absurd h (by simp)
  · rw [money_subtract_coerce a o mb hc, money_subtract_money] at h
    by_cases hchk : Money.numberInSafeIntegerRange
      (jsSub (normalizeValue a.amount) (normalizeValue mb.amount)) = true
    · rw [if_pos hchk] at h
      obtain ⟨q, hq⟩ := check_true_fin _ hchk
      rw [hq] at h
      exact rescale_ok_finite q _ m h
    · rw [if_neg hchk] at h
      exact absurd h (by simp)

theorem multiply_ok_finAmount (a : Money) (o : Operand) (m : Money)
    (h : Money.multiply a o = .ok m) : m.amount.isFinite = true := by
  rcases hc : coerceToMoney o with e | mb
  · rw [money_multiply_coerce_err a o e hc] at h
    exact absurd h (by simp)
  · rw [money_multiply_coerce a o mb hc, money_multiply_money] at h
    by_cases hchk : Money.numberInSafeIntegerRange
      (jsMul (normalizeValue a.amount) (normalizeValue mb.amount)) = true
    · rw [if_pos hchk] at h
      obtain ⟨q, hq⟩ := check_true_fin _ hchk
      rw [hq] at h
      exact rescale_ok_finite q _ m h
    · rw [if_neg hchk] at h
      exact absurd h (by simp)

theorem isNaN_false_of_isFinite (x : JSNum) (h : x.isFinite = true) :
    x.isNaN = false := by
  cases x <;> simp_all [JSNum.isFinite, JSNum.isNaN]

/-- C3: the range guard returns true exactly on finite numbers strictly
between MIN_SAFE_INTEGER and MAX_SAFE_INTEGER (the boundaries themselves
unsafe), and each of add, subtract, multiply on two Amounts fails with the
fixed too-big range error exactly when the combined integer fails that
check — and returns a constructed Amount whenever the check passes. -/
theorem range_guard_spec (a b : Money) (n : JSNum) :
    (Money.numberInSafeIntegerRange n = true ↔
      ∃ q : ℚ, n = .fin q ∧ minSafeInteger < q ∧ q < maxSafeInteger) ∧
    (Money.add a (.money b) = .error ⟨numberTooBigMessage⟩ ↔
      Money.numberInSafeIntegerRange
        (jsAdd (normalizeValue a.amount) (normalizeValue b.amount)) = false) ∧
    (Money.numberInSafeIntegerRange
        (jsAdd (normalizeValue a.amount) (normalizeValue b.amount)) = true →
      ∃ m : Money, Money.add a (.money b) = .ok m) ∧
    (Money.subtract a (.money b) = .error ⟨numberTooBigMessage⟩ ↔
      Money.numberInSafeIntegerRange
        (jsSub (normalizeValue a.amount) (normalizeValue b.amount)) = false) ∧
    (Money.numberInSafeIntegerRange
        (jsSub (normalizeValue a.amount) (normalizeValue b.amount)) = true →
      ∃ m : Money, Money.subtract a (.money b) = .ok m) ∧
    (Money.multiply a (.money b) = .error ⟨numberTooBigMessage⟩ ↔
      Money.numberInSafeIntegerRange
        (jsMul (normalizeValue a.amount) (normalizeValue b.amount)) = false) ∧
    (Money.numberInSafeIntegerRange
        (jsMul (normalizeValue a.amount) (normalizeValue b.amount)) = true →
      ∃ m : Money, Money.multiply a (.money b) = .ok m) := by
  refine ⟨?_, add_error_iff a b, add_ok_of_check a b, subtract_error_iff a b,
    subtract_ok_of_check a b, multiply_error_iff a b, multiply_ok_of_check a b⟩
  cases n with
  | fin q =>
    rw [check_fin_iff]
    constructor
    · intro h
      exact ⟨q, rfl, h⟩
    · rintro ⟨q', hq, h1, h2⟩
      cases hq
      exact ⟨h1, h2⟩
  | nan => simp [Money.numberInSafeIntegerRange]
  | inf => simp [Money.numberInSafeIntegerRange]
  | ninf => simp [Money.numberInSafeIntegerRange]

theorem range_guard_spec_witness :
    Money.add ⟨.fin (mkRat 9007199256 1)⟩ (.money ⟨.fin 1⟩) =
      .error ⟨numberTooBigMessage⟩ :=
  ((range_guard_spec ⟨.fin (mkRat 9007199256 1)⟩ ⟨.fin 1⟩ .nan).2.1).mpr (by decide)

/-- C5: construction fails with a ParseError carrying the fixed message
exactly when leading-prefix float parsing yields no valid number (for
example the empty string or a non-numeric string); otherwise the constructed
Amount's value is exactly the parse result, with no rounding. -/
theorem construction_parse_spec :
    (∀ s : String,
      (Money.fromString s = .error ⟨cannotParseMessage⟩ ↔
        (parseFloat s).isNaN = true) ∧
      ∀ x : JSNum, parseFloat s = x → x.isNaN = false →
        Money.fromString s = .ok ⟨x⟩) ∧
    parseFloat "" = .nan ∧
    parseFloat "randomString" = .nan ∧
    ∀ x : JSNum,
      (Money.fromNumber x = .error ⟨cannotParseMessage⟩ ↔ x.isNaN = true) ∧
      (x.isNaN = false → Money.fromNumber x = .ok ⟨x⟩) := by
  refine ⟨fun s => ⟨?_, ?_⟩, by decide, by decide, fun x => ⟨?_, ?_⟩⟩
  · simp only [Money.fromString]
    by_cases h : (parseFloat s).isNaN = true
    · simp [h]
    · rw [Bool.not_eq_true] at h
      simp [h]
  · intro x hx hnx
    simp only [Money.fromString, hx, hnx, Bool.false_eq_true, if_false]
  · simp only [Money.fromNumber]
    by_cases h : x.isNaN = true
    · simp [h]
    · rw [Bool.not_eq_true] at h
      simp [h]
  · intro hnx
    simp only [Money.fromNumber, hnx, Bool.false_eq_true, if_false]

theorem construction_parse_spec_witness :
    Money.fromString "0.125" = .ok ⟨.fin (mkRat 1 8)⟩ :=
  (construction_parse_spec.1 "0.125").2 (.fin (mkRat 1 8)) (by decide) (by decide)

/-- C6: the stored amount of Amount(25.9).subtract(Amount(6.475)) is exactly
the decimal 19.425 = 19425/1000, not the binary-float difference
19.424999999999997, and construction stores 25.9 itself unrounded. -/
theorem subtract_full_precision_example :
    Money.fromNumber (.fin (mkRat 259 10)) = .ok ⟨.fin (mkRat 259 10)⟩ ∧
    Money.subtract ⟨.fin (mkRat 259 10)⟩ (.money ⟨.fin (mkRat 6475 1000)⟩) =
      .ok ⟨.fin (mkRat 19425 1000)⟩ ∧
    (mkRat 19425 1000 : ℚ) = 19425 / 1000 ∧
    (mkRat 19425 1000 : ℚ) ≠ 19424999999999997 / 1000000000000000 := by
  refine ⟨by decide, by decide, ?_, ?_⟩
  · rw [Rat.mkRat_eq_div]
    norm_num
  · rw [Rat.mkRat_eq_div]
    norm_num

/-- C7 counterexample: the stored value is not always finite — the
constructor accepts the number Infinity (parseFloat recognizes the Infinity
literal produced by stringification), producing an Amount whose value is not
finite. -/
theorem amount_finite_cex :
    Money.fromNumber .inf = .ok ⟨.inf⟩ ∧ JSNum.isFinite .inf = false :=
  ⟨rfl, rfl⟩

/-- C7 (amended): the stored value is never NaN — construction fails whenever
the parsed input is NaN — but the constructor does accept the non-finite
infinities; every arithmetic operation that returns an Amount returns one
holding a finite value. -/
theorem amount_never_nan_spec :
    (∀ (x : JSNum) (m : Money),
      Money.fromNumber x = .ok m → m.amount.isNaN = false) ∧
    (∀ (s : String) (m : Money),
      Money.fromString s = .ok m → m.amount.isNaN = false) ∧
    (∀ (a : Money) (o : Operand) (m : Money),
      Money.add a o = .ok m → m.amount.isFinite = true) ∧
    (∀ (a : Money) (o : Operand) (m : Money),
      Money.subtract a o = .ok m → m.amount.isFinite = true) ∧
    (∀ (a : Money) (o : Operand) (m : Money),
      Money.multiply a o = .ok m → m.amount.isFinite = true) := by
  refine ⟨?_, ?_, add_ok_finAmount, subtract_ok_finAmount, multiply_ok_finAmount⟩
  · intro x m h
    by_cases hx : x.isNaN = true
    · simp [Money.fromNumber, hx] at h
    · rw [Bool.not_eq_true] at hx
      simp only [Money.fromNumber, hx, Bool.false_eq_true, if_false,
        Except.ok.injEq] at h
      rw [← h]
      exact hx
  · intro s m h
    by_cases hx : (parseFloat s).isNaN = true
    · simp [Money.fromString, hx] at h
    · rw [Bool.not_eq_true] at hx
      simp only [Money.fromString, hx, Bool.false_eq_true, if_false,
        Except.ok.injEq] at h
      rw [← h]
      exact hx

theorem amount_never_nan_spec_witness :
    JSNum.isNaN (Money.mk (.fin 1)).amount = false :=
  amount_never_nan_spec.1 (.fin 1) ⟨.fin 1⟩ rfl

/-- C8: addPercent and subtractPercent are exactly the composition of the
external calculatePercent helper with add and subtract — no independent
logic — and the helper computes value × percent / 100 on finite inputs. -/
theorem percent_delegation_spec (m : Money) (p : JSNum) :
    m.addPercent p = m.add (.num (calculatePercent m.amount p)) ∧
    m.subtractPercent p = m.subtract (.num (calculatePercent m.amount p)) ∧
    ∀ v pc : ℚ, calculatePercent (.fin v) (.fin pc) = .fin (v * pc / 100) := by
  refine ⟨rfl, rfl, fun v pc => ?_⟩
  simp only [calculatePercent, jsMul, jsDivPow10, qMul_eq, qDivPow10_eq]
  norm_num

/-- C9: arithmetic never constructs an Amount holding NaN: normalization
sends every non-finite operand, and every finite operand whose decimal
rendering carries an exponent marker, to NaN; NaN fails the safe-range
check; each operation's successful results hold non-NaN values; and an
infinite operand concretely produces the range error. -/
theorem arithmetic_nan_guard_spec :
    (∀ x : JSNum, x.isFinite = false → normalizeValue x = .nan) ∧
    (∀ q : ℚ, jsToStringHasExp q = true → normalizeValue (.fin q) = .nan) ∧
    Money.numberInSafeIntegerRange .nan = false ∧
    (∀ (a : Money) (o : Operand) (m : Money),
      Money.add a o = .ok m → m.amount.isNaN = false) ∧
    (∀ (a : Money) (o : Operand) (m : Money),
      Money.subtract a o = .ok m → m.amount.isNaN = false) ∧
    (∀ (a : Money) (o : Operand) (m : Money),
      Money.multiply a o = .ok m → m.amount.isNaN = false) ∧
    Money.add ⟨.inf⟩ (.money ⟨.fin 1⟩) = .error ⟨numberTooBigMessage⟩ := by
  refine ⟨normalizeValue_nan_of_nonfinite, normalizeValue_nan_of_exp, rfl,
    fun a o m h => isNaN_false_of_isFinite _ (add_ok_finAmount a o m h),
    fun a o m h => isNaN_false_of_isFinite _ (subtract_ok_finAmount a o m h),
    fun a o m h => isNaN_false_of_isFinite _ (multiply_ok_finAmount a o m h),
    by decide⟩

theorem arithmetic_nan_guard_spec_witness :
    normalizeValue .inf = .nan :=
  arithmetic_nan_guard_spec.1 .inf rfl

/- ---------- Legacy comparison helpers ---------- -/

